import Mathlib

/-!
Verification of the DORA-metrics engine in `ContentAnalyzer/analyze.py`.

Events are modelled as records with an optional timestamp (seconds since the
epoch; `none` models pandas `NaT`, the result of
`pd.to_datetime(..., errors="coerce")` on a missing or unparseable value) and a
message string.  Durations in hours and all metric means are rationals; a
metric field that the Python code can set to `NaN` (a float `mean()` over an
empty or all-`NaN` selection) is modelled as `Option ℚ`, with `none` standing
for `NaN`.
-/

/-- One ingested event: a possibly-missing timestamp and a free-text message. -/
structure RawEvent where
  date : Option Int
  message : String
deriving DecidableEq, Repr

/-- Lower-case a character list (models the python case-insensitive matching,
`case=False`, on ASCII text). -/
def lcStr (l : List Char) : List Char := l.map Char.toLower

/-- Initial-segment test: `beginsWith n h` is true when `n` begins `h`. -/
def beginsWith : List Char → List Char → Bool
  | [], _ => true
  | _ :: _, [] => false
  | a :: as, b :: bs => a == b && beginsWith as bs

/-- Contiguous-substring test: `containsSub n h` is true when `n` occurs somewhere in `h`. -/
def containsSub (n : List Char) : List Char → Bool
  | [] => beginsWith n []
  | c :: cs => beginsWith n (c :: cs) || containsSub n cs

/-- Case-insensitive substring test.  Models
`Series.str.contains(pattern, case=False, na=False)` for a pattern that is a
regex-escaped literal (every pattern the analyzer builds is either an escaped
literal or an alternation of plain keywords, handled below). -/
def containsCI (needle hay : String) : Bool :=
  containsSub (lcStr needle.data) (lcStr hay.data)

/-- The deployment vocabulary of the analyzer. -/
def deployment_keywords : List String := ["deploy", "release", "bump", "update", "version"]

/-- The failure vocabulary of the analyzer. -/
def failure_keywords : List String := ["bug", "rollback", "hotfix", "revert", "patch"]

/-- The bug vocabulary of the analyzer. -/
def bug_keywords : List String := ["bug", "error", "issue"]

/-- The pull-request pattern, an alternation of two literals. -/
def pr_keywords : List String := ["PR", "pull request"]

/-- Deployment label: the joined-alternation regex containment, true when any
deployment keyword occurs as a case-insensitive substring of the message. -/
def is_deployment (e : RawEvent) : Bool :=
  deployment_keywords.any (fun k => containsCI k e.message)

/-- Failure label, same alternation semantics. -/
def is_failure (e : RawEvent) : Bool :=
  failure_keywords.any (fun k => containsCI k e.message)

/-- Bug label. -/
def is_bug (e : RawEvent) : Bool :=
  bug_keywords.any (fun k => containsCI k e.message)

/-- Pull-request label. -/
def is_pr (e : RawEvent) : Bool :=
  pr_keywords.any (fun k => containsCI k e.message)

/-- The module filter: keep events whose message contains the bracketed module
tag anywhere, case-insensitively (the code regex-escapes the tag, so the
pattern is a literal). -/
def module_commits (events : List RawEvent) (module_name : String) : List RawEvent :=
  events.filter (fun e => containsCI ("[" ++ module_name ++ "]") e.message)

/-- Number of deployment-labelled rows. -/
def deployment_count (l : List RawEvent) : Nat := l.countP (fun e => is_deployment e)

/-- Number of failure-labelled rows. -/
def failure_count (l : List RawEvent) : Nat := l.countP (fun e => is_failure e)

/-- Number of bug-labelled rows. -/
def bug_count (l : List RawEvent) : Nat := l.countP (fun e => is_bug e)

/-- Number of pull-request-labelled rows. -/
def pr_count (l : List RawEvent) : Nat := l.countP (fun e => is_pr e)

/-- Week key: models `dt.to_period("W")`, the weekly period (anchored Sunday,
i.e. weeks running Monday through Sunday, the ISO-week partition) containing a
timestamp.
Computed from the day number: 1970-01-01 is a Thursday, so day `-3`
(Monday 1969-12-29) opens week `0`. -/
def weekOf (s : Int) : Int := Int.fdiv (Int.fdiv s 86400 + 3) 7

/-- The week keys of the deployment rows that carry a parseable timestamp:
the groupby over the week key drops `NaT`
keys by default. -/
def deployment_weeks (l : List RawEvent) : List Int :=
  l.filterMap (fun e => if is_deployment e then e.date.map weekOf else none)

/-- First-occurrence deduplication, the order `pandas.unique` and group keys
appear in. -/
def dedupAux {α : Type} [DecidableEq α] (seen : List α) : List α → List α
  | [] => []
  | x :: xs => if x ∈ seen then dedupAux seen xs else x :: dedupAux (x :: seen) xs

/-- `pandas.unique`: distinct values, first occurrence kept. -/
def uniqueKeepFirst {α : Type} [DecidableEq α] (l : List α) : List α := dedupAux [] l

/-- Group sizes: for each distinct week key, the number of rows
in that group (as a rational, ready for `mean`). -/
def groupSizes (ws : List Int) : List ℚ :=
  (uniqueKeepFirst ws).map (fun w => (ws.count w : ℚ))

/-- `Series.mean()` with the default `skipna` semantics after dropping the
invalid entries: the mean of a nonempty list, and `NaN` (here `none`) for an
empty one. -/
def meanOpt (l : List ℚ) : Option ℚ :=
  if l = [] then none else some (l.sum / l.length)

/-- Weekly deployment frequency: the mean of the per-week group sizes of the
deployment rows when `deployment_count > 0`, else `0`.  When every deployment
row has a `NaT` date the groupby is empty and the mean is `NaN` (`none`). -/
def weekly_deployment_freq (l : List RawEvent) : Option ℚ :=
  if 0 < deployment_count l then meanOpt (groupSizes (deployment_weeks l)) else some 0

/-- Change failure rate: `failure_count / deployment_count * 100` when the
deployment count is positive, else `0`. -/
def change_failure_rate (l : List RawEvent) : ℚ :=
  if 0 < deployment_count l then
    (failure_count l : ℚ) / (deployment_count l : ℚ) * 100
  else 0

/-- First subsequent recovery: the first deployment-labelled event strictly
after the current position, in the original row order (the code never sorts
by timestamp). -/
def firstSubsequentDeployment : List RawEvent → Option RawEvent
  | [] => none
  | e :: rest => if is_deployment e then some e else firstSubsequentDeployment rest

/-- The sample one failure/recovery pair contributes:
`(recovery_time - failure_time).total_seconds() / 3600`, kept only when
strictly positive.  If either timestamp is `NaT` the difference is `NaN`,
`NaN > 0` is false, and no sample is appended. -/
def recoverySample (f d : RawEvent) : List ℚ :=
  match f.date, d.date with
  | some tf, some td =>
    if 0 < (((td - tf : Int) : ℚ) / 3600) then [((td - tf : Int) : ℚ) / 3600] else []
  | _, _ => []

/-- Recovery samples: for each failure row (in original order), pair it with
the first subsequent deployment row, if any, and keep the positive durations. -/
def recovery_times : List RawEvent → List ℚ
  | [] => []
  | e :: rest =>
    (if is_failure e then
       match firstSubsequentDeployment rest with
       | some d => recoverySample e d
       | none => []
     else []) ++ recovery_times rest

/-- Mean time to recovery: the mean of the recovery samples, `0` when there
are none. -/
def mean_time_to_recovery (l : List RawEvent) : ℚ :=
  if recovery_times l = [] then 0
  else (recovery_times l).sum / ((recovery_times l).length : ℚ)

/-- The terms that survive the aligned subtraction of the date column from
the deployment-row date sub-series, divided into hours.
The left operand is the date sub-series of the deployment rows, so the
subtraction aligns on the shared index: each deployment row subtracts its own
timestamp (yielding `0` when the date is present, `NaT` when it is `NaT`),
and every non-deployment row, absent from the left operand, yields `NaT`.
`.mean()` then skips the `NaN` entries, so only deployment rows with a
parseable date contribute, each contributing `0`. -/
def lead_terms (l : List RawEvent) : List ℚ :=
  l.filterMap (fun e =>
    if is_deployment e then e.date.map (fun d => ((d - d : Int) : ℚ) / 3600) else none)

/-- Lead time for changes: the mean of the aligned lead terms inside the
`deployment_count > 0` branch (there `module_commits` is nonempty, so the
aligned series is never empty and the emptiness guard of the code never
fires; the mean skips `NaN` entries and is itself `NaN` — `none` — when no
term survives); `0` with no deployments. -/
def lead_time_for_changes (l : List RawEvent) : Option ℚ :=
  if 0 < deployment_count l then meanOpt (lead_terms l) else some 0

/-- The per-module result dictionary. -/
structure MetricReport where
  moduleName : String
  totalCommits : Nat
  totalBugs : Nat
  totalPRs : Nat
  weeklyDeploymentFrequency : Option ℚ
  changeFailureRate : ℚ
  meanTimeToRecovery : ℚ
  leadTimeForChanges : Option ℚ
deriving DecidableEq, Repr

/-- The per-module metric computation `calculate_dora_metrics`. -/
def calculate_dora_metrics (events : List RawEvent) (module_name : String) : MetricReport :=
  { moduleName := module_name
    totalCommits := (module_commits events module_name).length
    totalBugs := bug_count (module_commits events module_name)
    totalPRs := pr_count (module_commits events module_name)
    weeklyDeploymentFrequency := weekly_deployment_freq (module_commits events module_name)
    changeFailureRate := change_failure_rate (module_commits events module_name)
    meanTimeToRecovery := mean_time_to_recovery (module_commits events module_name)
    leadTimeForChanges := lead_time_for_changes (module_commits events module_name) }

/-- Helper for a tag match starting right after an opening bracket: the
maximal run of non-closing-bracket characters, required nonempty and required
to be terminated by an actual closing bracket. -/
def takeTag (l : List Char) : Option (List Char) :=
  let pre := l.takeWhile (fun c => c ≠ ']')
  if pre.length = 0 ∨ pre.length = l.length then none else some pre

/-- Leftmost tag match: scan for an opening bracket whose tag attempt
succeeds; on failure keep scanning to the right, exactly as the regex engine
advances its starting position. -/
def tagScan : List Char → Option (List Char)
  | [] => none
  | c :: rest =>
    if c = '[' then
      match takeTag rest with
      | some t => some t
      | none => tagScan rest
    else tagScan rest

/-- First bracketed tag of a message, if any: models the pandas `str.extract`
of the pattern bracket, one-or-more non-closing-bracket characters, bracket. -/
def firstTag (s : String) : Option String :=
  (tagScan s.data).map (fun t => String.mk t)

/-- Component discovery `extract_components`: the distinct (case-sensitive,
first occurrence kept) first tags over all messages, tagless messages
contributing nothing. -/
def extract_components (events : List RawEvent) : List String :=
  uniqueKeepFirst (events.filterMap (fun e => firstTag e.message))

/-- Follows the wording of the spec (§4.3 Step 7): the cross-join lead time —
every deployment timestamp paired against every filtered event timestamp, the
durations in hours, and the overall mean (missing timestamps excluded from the
time arithmetic). -/
def specCrossJoinLeadTime (events : List RawEvent) (module_name : String) : Option ℚ :=
  if 0 < deployment_count (module_commits events module_name) then
    meanOpt
      (((module_commits events module_name).filterMap
          (fun e => if is_deployment e then e.date else none)).flatMap
        (fun d =>
          ((module_commits events module_name).filterMap (fun e => e.date)).map
            (fun t => ((d - t : Int) : ℚ) / 3600)))
  else some 0

/-- Stable insertion into a date-sorted list (ascending). -/
def specSortInsert (x : Int × RawEvent) : List (Int × RawEvent) → List (Int × RawEvent)
  | [] => [x]
  | y :: ys => if x.1 ≤ y.1 then x :: y :: ys else y :: specSortInsert x ys

/-- Insertion sort by ascending timestamp. -/
def specSortByDate (l : List (Int × RawEvent)) : List (Int × RawEvent) :=
  l.foldr specSortInsert []

/-- First deployment in a (already sorted) tail, by position. -/
def specFirstDeploy : List (Int × RawEvent) → Option Int
  | [] => none
  | p :: rest => if is_deployment p.2 then some p.1 else specFirstDeploy rest

/-- Recovery scan over a chronologically sorted list, per the wording of the spec. -/
def specScan : List (Int × RawEvent) → List ℚ
  | [] => []
  | p :: rest =>
    (if is_failure p.2 then
       match specFirstDeploy rest with
       | some td =>
         if 0 < (((td - p.1 : Int) : ℚ) / 3600) then [((td - p.1 : Int) : ℚ) / 3600] else []
       | none => []
     else []) ++ specScan rest

/-- Follows the wording of the spec (§4.3 Step 6): sort the filtered events
chronologically, dropping events with missing timestamps; pair each failure
with the first deployment at a strictly later sorted position; keep positive
durations in hours; MTTR is their mean, `0` when there are none. -/
def specSortedMTTR (events : List RawEvent) (module_name : String) : ℚ :=
  let sorted := specSortByDate
    ((module_commits events module_name).filterMap (fun e => e.date.map (fun d => (d, e))))
  if specScan sorted = [] then 0
  else (specScan sorted).sum / ((specScan sorted).length : ℚ)

/-- Follows the wording of the spec (§4.3 Step 4): the arithmetic mean of per-week
deployment counts across the distinct ISO weeks that contain at least one
deployment. -/
def specWeeklyMean (ws : List Int) : ℚ :=
  ((ws.dedup.map (fun w => (ws.count w : ℚ))).sum) / (ws.dedup.length : ℚ)

/-- The occurrence property the classifier decides: the needle occurs,
case-insensitively, as a contiguous substring of the haystack. -/
def OccursCI (needle hay : String) : Prop :=
  ∃ p q, lcStr hay.data = p ++ lcStr needle.data ++ q

/-- Forget every timestamp of a list of events (used to state that the
count-based metrics never look at dates). -/
def stripDates (l : List RawEvent) : List RawEvent :=
  l.map (fun e => { date := none, message := e.message })

/-- Correctness of the initial-segment scan. -/
theorem beginsWith_iff : ∀ (n h : List Char), beginsWith n h = true ↔ ∃ t, h = n ++ t
  | [], h => by simp [beginsWith]
  | a :: as, [] => by simp [beginsWith]
  | a :: as, b :: bs => by
    simp only [beginsWith, Bool.and_eq_true, beq_iff_eq]
    constructor
    · rintro ⟨rfl, hb⟩
      obtain ⟨t, rfl⟩ := (beginsWith_iff as bs).mp hb
      exact ⟨t, rfl⟩
    · rintro ⟨t, ht⟩
      rw [List.cons_append] at ht
      injection ht with h1 h2
      exact ⟨h1.symm, (beginsWith_iff as bs).mpr ⟨t, h2⟩⟩

/-- Correctness of the substring scan. -/
theorem containsSub_iff : ∀ (n h : List Char), containsSub n h = true ↔ ∃ p q, h = p ++ n ++ q
  | n, [] => by
    simp only [containsSub, beginsWith_iff]
    constructor
    · rintro ⟨t, ht⟩
      rcases List.append_eq_nil.mp ht.symm with ⟨rfl, rfl⟩
      exact ⟨[], [], rfl⟩
    · rintro ⟨p, q, hpq⟩
      rcases List.append_eq_nil.mp hpq.symm with ⟨h1, rfl⟩
      rcases List.append_eq_nil.mp h1 with ⟨rfl, rfl⟩
      exact ⟨[], rfl⟩
  | n, c :: cs => by
    simp only [containsSub, Bool.or_eq_true, beginsWith_iff, containsSub_iff n cs]
    constructor
    · rintro (⟨t, ht⟩ | ⟨p, q, rfl⟩)
      · exact ⟨[], t, by simpa using ht⟩
      · exact ⟨c :: p, q, rfl⟩
    · rintro ⟨p, q, hpq⟩
      cases p with
      | nil => exact Or.inl ⟨q, by simpa using hpq⟩
      | cons x p =>
        rw [List.cons_append, List.cons_append] at hpq
        injection hpq with h1 h2
        exact Or.inr ⟨p, q, h2⟩

/-- The case-insensitive containment test decides `OccursCI`. -/
theorem containsCI_iff (needle hay : String) :
    containsCI needle hay = true ↔ OccursCI needle hay :=
  containsSub_iff (lcStr needle.data) (lcStr hay.data)

/-- Membership in the deduplication accumulator. -/
theorem mem_dedupAux {α : Type} [DecidableEq α] (x : α) :
    ∀ (seen l : List α), x ∈ dedupAux seen l ↔ x ∈ l ∧ x ∉ seen
  | seen, [] => by simp [dedupAux]
  | seen, y :: ys => by
    by_cases hy : y ∈ seen
    · rw [dedupAux, if_pos hy, mem_dedupAux x seen ys]
      constructor
      · rintro ⟨h1, h2⟩
        exact ⟨List.mem_cons_of_mem _ h1, h2⟩
      · rintro ⟨h1, h2⟩
        rcases List.mem_cons.mp h1 with rfl | h1
        · exact absurd hy h2
        · exact ⟨h1, h2⟩
    · rw [dedupAux, if_neg hy, List.mem_cons, mem_dedupAux x (y :: seen) ys]
      constructor
      · rintro (rfl | ⟨h1, h2⟩)
        · exact ⟨List.mem_cons_self x ys, hy⟩
        · exact ⟨List.mem_cons_of_mem _ h1,
            fun hx => h2 (List.mem_cons_of_mem _ hx)⟩
      · rintro ⟨h1, h2⟩
        by_cases hxy : x = y
        · exact Or.inl hxy
        · have h3 : x ∈ ys := by
            rcases List.mem_cons.mp h1 with h | h
            · exact absurd h hxy
            · exact h
          exact Or.inr ⟨h3, fun hx => (List.mem_cons.mp hx).elim hxy h2⟩

/-- The deduplicated list has no duplicates. -/
theorem nodup_dedupAux {α : Type} [DecidableEq α] :
    ∀ (seen l : List α), (dedupAux seen l).Nodup
  | _, [] => List.nodup_nil
  | seen, y :: ys => by
    rw [dedupAux]
    by_cases hy : y ∈ seen
    · rw [if_pos hy]
      exact nodup_dedupAux seen ys
    · rw [if_neg hy]
      refine List.Nodup.cons ?_ (nodup_dedupAux (y :: seen) ys)
      intro hmem
      exact ((mem_dedupAux y (y :: seen) ys).mp hmem).2 (List.mem_cons_self y seen)

/-- First-occurrence deduplication keeps exactly the members. -/
theorem mem_uniqueKeepFirst {α : Type} [DecidableEq α] (x : α) (l : List α) :
    x ∈ uniqueKeepFirst l ↔ x ∈ l := by
  rw [uniqueKeepFirst, mem_dedupAux]
  simp

/-- First-occurrence deduplication is a permutation of the standard `dedup`. -/
theorem uniqueKeepFirst_perm_dedup {α : Type} [DecidableEq α] (l : List α) :
    List.Perm (uniqueKeepFirst l) l.dedup := by
  apply List.perm_of_nodup_nodup_toFinset_eq (nodup_dedupAux [] l) (List.nodup_dedup l)
  ext x
  simp [List.mem_toFinset, mem_dedupAux, List.mem_dedup]

/-- On a nonempty week-key list, the groupby mean is exactly the spec-side
mean over distinct weeks. -/
theorem meanOpt_groupSizes (ws : List Int) (hws : ws ≠ []) :
    meanOpt (groupSizes ws) = some (specWeeklyMean ws) := by
  have hperm : List.Perm (groupSizes ws) (ws.dedup.map (fun w => (ws.count w : ℚ))) :=
    (uniqueKeepFirst_perm_dedup ws).map _
  have hne : groupSizes ws ≠ [] := by
    obtain ⟨w, hw⟩ := List.exists_mem_of_ne_nil ws hws
    have : (ws.count w : ℚ) ∈ groupSizes ws :=
      List.mem_map_of_mem _ ((mem_uniqueKeepFirst w ws).mpr hw)
    exact List.ne_nil_of_mem this
  rw [meanOpt, if_neg hne, specWeeklyMean, hperm.sum_eq, hperm.length_eq]
  simp

/-- Scanning past a deployment-free block finds the given deployment. -/
theorem firstSubsequentDeployment_append :
    ∀ (l1 : List RawEvent) (d : RawEvent) (l2 : List RawEvent),
      (∀ x ∈ l1, is_deployment x = false) → is_deployment d = true →
      firstSubsequentDeployment (l1 ++ d :: l2) = some d
  | [], d, l2, _, hd => by simp [firstSubsequentDeployment, hd]
  | x :: xs, d, l2, hl, hd => by
    have hx : is_deployment x = false := hl x (List.mem_cons_self x xs)
    rw [List.cons_append]
    simp only [firstSubsequentDeployment, hx]
    simp only [Bool.false_eq_true, if_false]
    exact firstSubsequentDeployment_append xs d l2
      (fun y hy => hl y (List.mem_cons_of_mem x hy)) hd

/-- A filter map that ignores dateless events can first discard them. -/
theorem filterMap_dateless_skip {β : Type} (f : RawEvent → Option β)
    (hf : ∀ x, x.date = none → f x = none) :
    ∀ l : List RawEvent, l.filterMap f = (l.filter (fun x => x.date.isSome)).filterMap f
  | [] => rfl
  | e :: rest => by
    cases hdate : e.date with
    | none =>
      rw [List.filterMap_cons, hf e hdate, List.filter_cons]
      simp only [hdate, Option.isSome_none, Bool.false_eq_true, if_false]
      exact filterMap_dateless_skip f hf rest
    | some d =>
      rw [List.filterMap_cons, List.filter_cons]
      simp only [hdate, Option.isSome_some, if_true]
      rw [List.filterMap_cons]
      cases hfe : f e <;>
        simp [hfe, filterMap_dateless_skip f hf rest]

/-- String append acts as list append on the underlying characters. -/
theorem string_data_append (s t : String) : (s ++ t).data = s.data ++ t.data := by
  cases s
  cases t
  rfl

/-- Bracketed patterns built from case-variant tags agree after lowering. -/
theorem lc_pattern_congr (t1 t2 : String) (h : lcStr t1.data = lcStr t2.data) :
    lcStr ("[" ++ t1 ++ "]").data = lcStr ("[" ++ t2 ++ "]").data := by
  rw [string_data_append, string_data_append, string_data_append, string_data_append]
  simp only [lcStr, List.map_append]
  rw [show (t1.data.map Char.toLower) = lcStr t1.data from rfl,
    show (t2.data.map Char.toLower) = lcStr t2.data from rfl, h]

/-- C1: the spec states that lead time for changes is the mean over the full
cross-join of deployment timestamps against all filtered event timestamps.
The code instead performs an index-aligned series subtraction in which each
deployment row subtracts its own timestamp and every other row yields `NaN`.
On two events one day apart — a plain commit, then a deployment — the
cross-join mean is 12 hours, while the code reports 0 hours. -/
theorem C1_lead_time_aligned_not_cross_join :
    specCrossJoinLeadTime
        [⟨some 0, "[X] work on issue"⟩, ⟨some 86400, "[X] deploy"⟩] "X" = some 12
    ∧ (calculate_dora_metrics
        [⟨some 0, "[X] work on issue"⟩, ⟨some 86400, "[X] deploy"⟩]
        "X").leadTimeForChanges = some 0 := by
  constructor
  · have hc : 0 < deployment_count (module_commits
        [⟨some 0, "[X] work on issue"⟩, ⟨some 86400, "[X] deploy"⟩] "X") := by decide
    have hds : (module_commits
        [⟨some 0, "[X] work on issue"⟩, ⟨some 86400, "[X] deploy"⟩] "X").filterMap
        (fun e => if is_deployment e then e.date else none) = [86400] := by decide
    have hts : (module_commits
        [⟨some 0, "[X] work on issue"⟩, ⟨some 86400, "[X] deploy"⟩] "X").filterMap
        (fun e => e.date) = [0, 86400] := by decide
    unfold specCrossJoinLeadTime
    rw [if_pos hc, hds, hts]
    norm_num [meanOpt, List.flatMap_cons, List.flatMap_nil]
    intro h
    exact absurd h (List.cons_ne_nil _ _)
  · have hc : 0 < deployment_count (module_commits
        [⟨some 0, "[X] work on issue"⟩, ⟨some 86400, "[X] deploy"⟩] "X") := by decide
    have hmc : module_commits
        [⟨some 0, "[X] work on issue"⟩, ⟨some 86400, "[X] deploy"⟩] "X" =
        [⟨some 0, "[X] work on issue"⟩, ⟨some 86400, "[X] deploy"⟩] := by decide
    have h1 : is_deployment (⟨some 0, "[X] work on issue"⟩ : RawEvent) = false := by decide
    have h2 : is_deployment (⟨some 86400, "[X] deploy"⟩ : RawEvent) = true := by decide
    show lead_time_for_changes (module_commits
        [⟨some 0, "[X] work on issue"⟩, ⟨some 86400, "[X] deploy"⟩] "X") = some 0
    unfold lead_time_for_changes
    rw [if_pos hc, hmc]
    norm_num [lead_terms, List.filterMap_cons, h1, h2, meanOpt]

/-- C2 counterexample: the claim says MTTR is computed over the events sorted
by ascending timestamp.  On a filtered set arriving out of chronological order
— failure at 5h, deployment at 0h, deployment at 20h — the sorted reading
pairs the failure with the 20h deployment (MTTR 15), while the code scans in
input order, pairs the failure with the 0h deployment, discards the negative
duration and reports 0. -/
theorem C2_counterexample_mttr_not_sorted :
    specSortedMTTR
        [⟨some 18000, "[X] hotfix"⟩, ⟨some 0, "[X] deploy"⟩, ⟨some 72000, "[X] deploy"⟩]
        "X" = 15
    ∧ (calculate_dora_metrics
        [⟨some 18000, "[X] hotfix"⟩, ⟨some 0, "[X] deploy"⟩, ⟨some 72000, "[X] deploy"⟩]
        "X").meanTimeToRecovery = 0 := by
  have hf1 : is_failure (⟨some 18000, "[X] hotfix"⟩ : RawEvent) = true := by decide
  have hf2 : is_failure (⟨some 0, "[X] deploy"⟩ : RawEvent) = false := by decide
  have hf3 : is_failure (⟨some 72000, "[X] deploy"⟩ : RawEvent) = false := by decide
  constructor
  · have hpairs : (module_commits
        [⟨some 18000, "[X] hotfix"⟩, ⟨some 0, "[X] deploy"⟩, ⟨some 72000, "[X] deploy"⟩]
        "X").filterMap (fun e => e.date.map (fun d => (d, e))) =
        [(18000, ⟨some 18000, "[X] hotfix"⟩), (0, ⟨some 0, "[X] deploy"⟩),
         (72000, ⟨some 72000, "[X] deploy"⟩)] := by decide
    have hsort : specSortByDate
        [(18000, (⟨some 18000, "[X] hotfix"⟩ : RawEvent)), (0, ⟨some 0, "[X] deploy"⟩),
         (72000, ⟨some 72000, "[X] deploy"⟩)] =
        [(0, ⟨some 0, "[X] deploy"⟩), (18000, ⟨some 18000, "[X] hotfix"⟩),
         (72000, ⟨some 72000, "[X] deploy"⟩)] := by decide
    have hfd : specFirstDeploy
        [(72000, (⟨some 72000, "[X] deploy"⟩ : RawEvent))] = some 72000 := by decide
    have hd3 : is_deployment (⟨some 72000, "[X] deploy"⟩ : RawEvent) = true := by decide
    unfold specSortedMTTR
    rw [hpairs, hsort]
    norm_num [specScan, specFirstDeploy, hf1, hf2, hf3, hfd, hd3]
  · have hmc : module_commits
        [⟨some 18000, "[X] hotfix"⟩, ⟨some 0, "[X] deploy"⟩, ⟨some 72000, "[X] deploy"⟩]
        "X" =
        [⟨some 18000, "[X] hotfix"⟩, ⟨some 0, "[X] deploy"⟩, ⟨some 72000, "[X] deploy"⟩] := by
      decide
    have hfsd : firstSubsequentDeployment
        [(⟨some 0, "[X] deploy"⟩ : RawEvent), ⟨some 72000, "[X] deploy"⟩] =
        some ⟨some 0, "[X] deploy"⟩ := by decide
    show mean_time_to_recovery (module_commits
        [⟨some 18000, "[X] hotfix"⟩, ⟨some 0, "[X] deploy"⟩, ⟨some 72000, "[X] deploy"⟩]
        "X") = 0
    unfold mean_time_to_recovery
    rw [hmc]
    norm_num [recovery_times, recoverySample, hf1, hf2, hf3, hfsd]

/-- C2 (amended): MTTR scans the filtered events in their original input
order, without sorting: a failure at the head pairs with the first
deployment-labelled event at a strictly later position, contributing a sample
exactly when both timestamps parse and the duration is positive (a
missing-timestamp deployment still consumes the match and yields nothing). -/
theorem C2_failure_pairs_first_later_deployment_in_input_order
    (f d : RawEvent) (l1 l2 : List RawEvent)
    (hf : is_failure f = true)
    (hl1 : ∀ x ∈ l1, is_deployment x = false)
    (hd : is_deployment d = true) :
    recovery_times (f :: (l1 ++ d :: l2)) =
      recoverySample f d ++ recovery_times (l1 ++ d :: l2) := by
  have hfsd := firstSubsequentDeployment_append l1 d l2 hl1 hd
  simp [recovery_times, hf, hfsd]

/-- Witness for the amended C2 theorem at the counterexample input. -/
theorem C2_failure_pairs_witness :
    (is_failure (⟨some 18000, "[X] hotfix"⟩ : RawEvent) = true
      ∧ (∀ x ∈ ([] : List RawEvent), is_deployment x = false)
      ∧ is_deployment (⟨some 0, "[X] deploy"⟩ : RawEvent) = true)
    ∧ recovery_times
        ((⟨some 18000, "[X] hotfix"⟩ : RawEvent) ::
          ([] ++ (⟨some 0, "[X] deploy"⟩ : RawEvent) :: [⟨some 72000, "[X] deploy"⟩])) =
      recoverySample ⟨some 18000, "[X] hotfix"⟩ ⟨some 0, "[X] deploy"⟩ ++
        recovery_times ([] ++ (⟨some 0, "[X] deploy"⟩ : RawEvent) :: [⟨some 72000, "[X] deploy"⟩]) :=
  ⟨⟨by decide, by decide, by decide⟩,
   C2_failure_pairs_first_later_deployment_in_input_order _ _ _ _
     (by decide) (by decide) (by decide)⟩

/-- C3: the claim promises all numeric fields finite even when every
deployment-labelled event has a missing timestamp.  On one dateless deployment
event the groupby over weeks is empty and the aligned lead-time series is
all-`NaN`, so both the weekly frequency and the lead time come out `NaN`
(modelled `none`), contradicting the claim. -/
theorem C3_nan_on_dateless_deployments :
    0 < deployment_count (module_commits [⟨none, "[X] deploy v1"⟩] "X")
    ∧ (calculate_dora_metrics [⟨none, "[X] deploy v1"⟩] "X").weeklyDeploymentFrequency = none
    ∧ (calculate_dora_metrics [⟨none, "[X] deploy v1"⟩] "X").leadTimeForChanges = none :=
  ⟨by decide, by decide, by decide⟩

/-- C4 counterexample: an event whose message contains two bracketed tags is
counted in the reports of both discovered components — membership is decided
by substring containment of the bracketed tag, not by the first tag — so the
event does not belong to exactly one component. -/
theorem C4_counterexample_event_in_two_components :
    "A" ∈ extract_components [⟨some 0, "[A] fix [B] part"⟩, ⟨some 0, "[B] deploy"⟩]
    ∧ "B" ∈ extract_components [⟨some 0, "[A] fix [B] part"⟩, ⟨some 0, "[B] deploy"⟩]
    ∧ (⟨some 0, "[A] fix [B] part"⟩ : RawEvent) ∈
        module_commits [⟨some 0, "[A] fix [B] part"⟩, ⟨some 0, "[B] deploy"⟩] "A"
    ∧ (⟨some 0, "[A] fix [B] part"⟩ : RawEvent) ∈
        module_commits [⟨some 0, "[A] fix [B] part"⟩, ⟨some 0, "[B] deploy"⟩] "B"
    ∧ "A" ≠ "B" :=
  ⟨by decide, by decide, by decide, by decide, by decide⟩

/-- C4 (amended): an event is counted in a component report exactly when its
message contains that component bracketed tag, case-insensitively, anywhere in
the text; an event mentioning several discovered tags therefore contributes to
several reports. -/
theorem C4_module_membership_is_tag_containment
    (events : List RawEvent) (module_name : String) (e : RawEvent) :
    e ∈ module_commits events module_name ↔
      e ∈ events ∧ OccursCI ("[" ++ module_name ++ "]") e.message := by
  simp [module_commits, List.mem_filter, containsCI_iff]

/-- C5: with at least one deployment event carrying a parseable timestamp in
the filtered set, the weekly deployment frequency is the arithmetic mean of
per-week deployment counts over exactly the distinct ISO weeks that contain a
deployment; empty weeks contribute no entry. -/
theorem C5_weekly_frequency_mean_over_active_weeks
    (events : List RawEvent) (module_name : String)
    (h : ∃ e ∈ module_commits events module_name,
      is_deployment e = true ∧ e.date.isSome = true) :
    (calculate_dora_metrics events module_name).weeklyDeploymentFrequency =
      some (specWeeklyMean (deployment_weeks (module_commits events module_name))) := by
  obtain ⟨e, he, hdep, hdate⟩ := h
  have hc : 0 < deployment_count (module_commits events module_name) :=
    List.countP_pos_iff.mpr ⟨e, he, hdep⟩
  obtain ⟨d, hd⟩ := Option.isSome_iff_exists.mp hdate
  have hw : deployment_weeks (module_commits events module_name) ≠ [] := by
    apply List.ne_nil_of_mem (a := weekOf d)
    apply List.mem_filterMap.mpr
    refine ⟨e, he, ?_⟩
    simp [hdep, hd]
  show weekly_deployment_freq _ = _
  rw [weekly_deployment_freq, if_pos hc, meanOpt_groupSizes _ hw]

/-- Witness for C5 at the two-then-one example: deployments on Thursday and
Friday of one ISO week and on Monday of the next give mean (2, 1) = 1.5. -/
theorem C5_weekly_frequency_witness :
    (∃ e ∈ module_commits
        [⟨some 0, "[X] deploy"⟩, ⟨some 86400, "[X] deploy"⟩, ⟨some 345600, "[X] deploy"⟩] "X",
      is_deployment e = true ∧ e.date.isSome = true)
    ∧ (calculate_dora_metrics
        [⟨some 0, "[X] deploy"⟩, ⟨some 86400, "[X] deploy"⟩, ⟨some 345600, "[X] deploy"⟩]
        "X").weeklyDeploymentFrequency = some (3 / 2) := by
  refine ⟨by decide, ?_⟩
  rw [C5_weekly_frequency_mean_over_active_weeks
    [⟨some 0, "[X] deploy"⟩, ⟨some 86400, "[X] deploy"⟩, ⟨some 345600, "[X] deploy"⟩]
    "X" (by decide)]
  have hwk : deployment_weeks (module_commits
      [⟨some 0, "[X] deploy"⟩, ⟨some 86400, "[X] deploy"⟩, ⟨some 345600, "[X] deploy"⟩]
      "X") = [0, 0, 1] := by decide
  rw [hwk]
  have hdd : ([0, 0, 1] : List Int).dedup = [0, 1] := by decide
  have hc0 : ([0, 0, 1] : List Int).count 0 = 2 := by decide
  have hc1 : ([0, 0, 1] : List Int).count 1 = 1 := by decide
  norm_num [specWeeklyMean, hdd, hc0, hc1]

/-- C6: the change-failure rate is `failure_count / deployment_count * 100`
when the deployment count is positive and `0` otherwise, with independently
labelled counts; it is not capped, e.g. one deployment and three failures give
300 percent. -/
theorem C6_change_failure_rate_formula_uncapped :
    (∀ (events : List RawEvent) (module_name : String),
      (calculate_dora_metrics events module_name).changeFailureRate =
        if 0 < deployment_count (module_commits events module_name) then
          (failure_count (module_commits events module_name) : ℚ) /
            (deployment_count (module_commits events module_name) : ℚ) * 100
        else 0)
    ∧ (calculate_dora_metrics
        [⟨some 0, "[X] deploy"⟩, ⟨some 0, "[X] hotfix"⟩, ⟨some 0, "[X] rollback"⟩,
         ⟨some 0, "[X] revert"⟩] "X").changeFailureRate = 300
    ∧ 100 < (calculate_dora_metrics
        [⟨some 0, "[X] deploy"⟩, ⟨some 0, "[X] hotfix"⟩, ⟨some 0, "[X] rollback"⟩,
         ⟨some 0, "[X] revert"⟩] "X").changeFailureRate := by
  have hc : 0 < deployment_count (module_commits
      [⟨some 0, "[X] deploy"⟩, ⟨some 0, "[X] hotfix"⟩, ⟨some 0, "[X] rollback"⟩,
       ⟨some 0, "[X] revert"⟩] "X") := by decide
  have hfc : failure_count (module_commits
      [⟨some 0, "[X] deploy"⟩, ⟨some 0, "[X] hotfix"⟩, ⟨some 0, "[X] rollback"⟩,
       ⟨some 0, "[X] revert"⟩] "X") = 3 := by decide
  have hdc : deployment_count (module_commits
      [⟨some 0, "[X] deploy"⟩, ⟨some 0, "[X] hotfix"⟩, ⟨some 0, "[X] rollback"⟩,
       ⟨some 0, "[X] revert"⟩] "X") = 1 := by decide
  refine ⟨fun _ _ => rfl, ?_, ?_⟩
  · show change_failure_rate (module_commits
        [⟨some 0, "[X] deploy"⟩, ⟨some 0, "[X] hotfix"⟩, ⟨some 0, "[X] rollback"⟩,
         ⟨some 0, "[X] revert"⟩] "X") = 300
    unfold change_failure_rate
    rw [if_pos hc, hfc, hdc]
    norm_num
  · show (100 : ℚ) < change_failure_rate (module_commits
        [⟨some 0, "[X] deploy"⟩, ⟨some 0, "[X] hotfix"⟩, ⟨some 0, "[X] rollback"⟩,
         ⟨some 0, "[X] revert"⟩] "X")
    unfold change_failure_rate
    rw [if_pos hc, hfc, hdc]
    norm_num

/-- C7: each of the four labels is true exactly when some term of the fixed
vocabulary occurs as a case-insensitive substring of the message, with the
word "bug" present in both the failure and the bug vocabularies. -/
theorem C7_classifier_any_keyword_substring (e : RawEvent) :
    (is_deployment e = true ↔ ∃ k ∈ deployment_keywords, OccursCI k e.message)
    ∧ (is_failure e = true ↔ ∃ k ∈ failure_keywords, OccursCI k e.message)
    ∧ (is_bug e = true ↔ ∃ k ∈ bug_keywords, OccursCI k e.message)
    ∧ (is_pr e = true ↔ ∃ k ∈ pr_keywords, OccursCI k e.message)
    ∧ "bug" ∈ failure_keywords ∧ "bug" ∈ bug_keywords := by
  refine ⟨?_, ?_, ?_, ?_, by decide, by decide⟩ <;>
    simp [is_deployment, is_failure, is_bug, is_pr, List.any_eq_true, containsCI_iff]

/-- C8: events with missing timestamps are counted by every count-based field
(the counts are invariant under forgetting all dates), yet contribute no week
entry, no aligned lead-time term, and no MTTR sample — neither as the failure
nor as the matched deployment of a pair. -/
theorem C8_dateless_events_counted_not_timed
    (l rest : List RawEvent) (e f : RawEvent) (he : e.date = none) :
    ((stripDates l).length = l.length
      ∧ deployment_count (stripDates l) = deployment_count l
      ∧ failure_count (stripDates l) = failure_count l
      ∧ bug_count (stripDates l) = bug_count l
      ∧ pr_count (stripDates l) = pr_count l)
    ∧ deployment_weeks l = deployment_weeks (l.filter (fun x => x.date.isSome))
    ∧ lead_terms l = lead_terms (l.filter (fun x => x.date.isSome))
    ∧ (is_failure e = true → recovery_times (e :: rest) = recovery_times rest)
    ∧ (is_failure f = true → firstSubsequentDeployment rest = some e →
        recovery_times (f :: rest) = recovery_times rest) := by
  refine ⟨⟨?_, ?_, ?_, ?_, ?_⟩, ?_, ?_, ?_, ?_⟩
  · simp [stripDates]
  · rw [deployment_count, stripDates, List.countP_map]; rfl
  · rw [failure_count, stripDates, List.countP_map]; rfl
  · rw [bug_count, stripDates, List.countP_map]; rfl
  · rw [pr_count, stripDates, List.countP_map]; rfl
  · exact filterMap_dateless_skip _
      (fun x hx => by rw [hx]; cases h : is_deployment x <;> simp [h]) l
  · exact filterMap_dateless_skip _
      (fun x hx => by rw [hx]; cases h : is_deployment x <;> simp [h]) l
  · intro hfe
    simp only [recovery_times, hfe, if_true]
    cases hfsd : firstSubsequentDeployment rest with
    | none => simp
    | some d => cases hd2 : d.date <;> simp [recoverySample, he, hd2]
  · intro hff hfsd
    simp only [recovery_times, hff, if_true, hfsd]
    cases hfd : f.date <;> simp [recoverySample, he, hfd]

/-- Witness for C8 at a dateless failure event. -/
theorem C8_dateless_witness :
    ((⟨none, "[X] bug"⟩ : RawEvent).date = none)
    ∧ (((stripDates [⟨none, "[X] bug"⟩]).length = [(⟨none, "[X] bug"⟩ : RawEvent)].length
      ∧ deployment_count (stripDates [⟨none, "[X] bug"⟩]) =
          deployment_count [⟨none, "[X] bug"⟩]
      ∧ failure_count (stripDates [⟨none, "[X] bug"⟩]) = failure_count [⟨none, "[X] bug"⟩]
      ∧ bug_count (stripDates [⟨none, "[X] bug"⟩]) = bug_count [⟨none, "[X] bug"⟩]
      ∧ pr_count (stripDates [⟨none, "[X] bug"⟩]) = pr_count [⟨none, "[X] bug"⟩])
    ∧ deployment_weeks [⟨none, "[X] bug"⟩] =
        deployment_weeks ([⟨none, "[X] bug"⟩].filter (fun x => x.date.isSome))
    ∧ lead_terms [⟨none, "[X] bug"⟩] =
        lead_terms ([⟨none, "[X] bug"⟩].filter (fun x => x.date.isSome))
    ∧ (is_failure (⟨none, "[X] bug"⟩ : RawEvent) = true →
        recovery_times (⟨none, "[X] bug"⟩ :: [⟨some 3600, "[X] deploy"⟩]) =
          recovery_times [⟨some 3600, "[X] deploy"⟩])
    ∧ (is_failure (⟨some 0, "[X] hotfix"⟩ : RawEvent) = true →
        firstSubsequentDeployment [⟨some 3600, "[X] deploy"⟩] = some ⟨none, "[X] bug"⟩ →
        recovery_times (⟨some 0, "[X] hotfix"⟩ :: [⟨some 3600, "[X] deploy"⟩]) =
          recovery_times [⟨some 3600, "[X] deploy"⟩])) :=
  ⟨rfl, C8_dateless_events_counted_not_timed
    [⟨none, "[X] bug"⟩] [⟨some 3600, "[X] deploy"⟩]
    ⟨none, "[X] bug"⟩ ⟨some 0, "[X] hotfix"⟩ rfl⟩

/-- C9: the computation is a total function of the event list and the module
name; for a component with no matching events every field of the report is
zero (the module name aside). -/
theorem C9_no_events_gives_all_zero_report
    (events : List RawEvent) (module_name : String)
    (h : module_commits events module_name = []) :
    calculate_dora_metrics events module_name =
      { moduleName := module_name, totalCommits := 0, totalBugs := 0, totalPRs := 0,
        weeklyDeploymentFrequency := some 0, changeFailureRate := 0,
        meanTimeToRecovery := 0, leadTimeForChanges := some 0 } := by
  unfold calculate_dora_metrics
  rw [h]
  rfl

/-- Witness for C9: no event of the log mentions module X. -/
theorem C9_no_events_witness :
    module_commits [⟨some 0, "hello world"⟩] "X" = []
    ∧ calculate_dora_metrics [⟨some 0, "hello world"⟩] "X" =
      { moduleName := "X", totalCommits := 0, totalBugs := 0, totalPRs := 0,
        weeklyDeploymentFrequency := some 0, changeFailureRate := 0,
        meanTimeToRecovery := 0, leadTimeForChanges := some 0 } :=
  ⟨by decide, C9_no_events_gives_all_zero_report _ _ (by decide)⟩

/-- C10: discovery is case-sensitive while filtering is case-insensitive: two
first tags equal up to letter case are discovered as two distinct components,
their filtered event sets coincide, and their reports agree on every field
except the component name. -/
theorem C10_case_variant_tags_identical_reports
    (events : List RawEvent) (e1 e2 : RawEvent) (t1 t2 : String)
    (h1 : e1 ∈ events) (h2 : firstTag e1.message = some t1)
    (h3 : e2 ∈ events) (h4 : firstTag e2.message = some t2)
    (h5 : t1 ≠ t2) (h6 : lcStr t1.data = lcStr t2.data) :
    t1 ∈ extract_components events ∧ t2 ∈ extract_components events
    ∧ module_commits events t1 = module_commits events t2
    ∧ calculate_dora_metrics events t1 =
        { calculate_dora_metrics events t2 with moduleName := t1 } := by
  have hfilter : module_commits events t1 = module_commits events t2 := by
    unfold module_commits
    apply List.filter_congr
    intro x hx
    unfold containsCI
    rw [lc_pattern_congr t1 t2 h6]
  refine ⟨?_, ?_, hfilter, ?_⟩
  · exact (mem_uniqueKeepFirst t1 _).mpr (List.mem_filterMap.mpr ⟨e1, h1, h2⟩)
  · exact (mem_uniqueKeepFirst t2 _).mpr (List.mem_filterMap.mpr ⟨e2, h3, h4⟩)
  · unfold calculate_dora_metrics
    rw [hfilter]

/-- Witness for C10 on tags Auth and auth. -/
theorem C10_case_variant_witness :
    ((⟨some 0, "[Auth] deploy"⟩ : RawEvent) ∈
        ([⟨some 0, "[Auth] deploy"⟩, ⟨some 0, "[auth] bug"⟩] : List RawEvent)
      ∧ firstTag (RawEvent.message ⟨some 0, "[Auth] deploy"⟩) = some "Auth"
      ∧ (⟨some 0, "[auth] bug"⟩ : RawEvent) ∈
        ([⟨some 0, "[Auth] deploy"⟩, ⟨some 0, "[auth] bug"⟩] : List RawEvent)
      ∧ firstTag (RawEvent.message ⟨some 0, "[auth] bug"⟩) = some "auth"
      ∧ "Auth" ≠ "auth"
      ∧ lcStr "Auth".data = lcStr "auth".data)
    ∧ ("Auth" ∈ extract_components [⟨some 0, "[Auth] deploy"⟩, ⟨some 0, "[auth] bug"⟩]
      ∧ "auth" ∈ extract_components [⟨some 0, "[Auth] deploy"⟩, ⟨some 0, "[auth] bug"⟩]
      ∧ module_commits [⟨some 0, "[Auth] deploy"⟩, ⟨some 0, "[auth] bug"⟩] "Auth" =
          module_commits [⟨some 0, "[Auth] deploy"⟩, ⟨some 0, "[auth] bug"⟩] "auth"
      ∧ calculate_dora_metrics [⟨some 0, "[Auth] deploy"⟩, ⟨some 0, "[auth] bug"⟩] "Auth" =
          { calculate_dora_metrics [⟨some 0, "[Auth] deploy"⟩, ⟨some 0, "[auth] bug"⟩] "auth"
            with moduleName := "Auth" }) :=
  ⟨⟨by decide, by decide, by decide, by decide, by decide, by decide⟩,
   C10_case_variant_tags_identical_reports
     [⟨some 0, "[Auth] deploy"⟩, ⟨some 0, "[auth] bug"⟩]
     ⟨some 0, "[Auth] deploy"⟩ ⟨some 0, "[auth] bug"⟩ "Auth" "auth"
     (by decide) (by decide) (by decide) (by decide) (by decide) (by decide)⟩
